import Mathlib

/-
  Verification of the metrics-whisperer front-end (src/src/pages/Index.tsx)
  and of the query-translation core described by the specification.

  The presentation layer is embedded directly from Index.tsx: component
  state, the submit handler (guard, fetch outcome handling, try/catch/finally
  state updates) and the render logic (optional chaining on raw_data,
  truthiness-conditional rendering of the Grafana link and the raw-data
  panel).  JavaScript truthiness of strings (empty string is falsy) is
  modelled by jsOrString and explicit emptiness tests.

  The backend pipeline (rule-based translate, store execution) is not part
  of the checked sources; it is modelled from the specification where a
  claim needs it, and each such definition is marked in its doc comment.
-/

namespace MetricsWhisperer

/-- Sample of series data returned by the metrics store: optional label set
plus a numeric value (numbers idealized as rationals). -/
structure Sample where
  labels : List (String × String)
  value : ℚ
  deriving DecidableEq

/-- Shape of the raw_data envelope consumed by Index.tsx: a result array
that may be absent (the code guards it with optional chaining). -/
structure RawData where
  result : Option (List Sample)
  deriving DecidableEq

/-- The QueryResponse interface of Index.tsx (lines 12-18): exactly five
fields, grafana_url optional. -/
structure QueryResponse where
  natural_language_response : String
  promql_query : String
  raw_data : Option RawData
  grafana_url : Option String
  execution_time : ℚ
  deriving DecidableEq

/-- Component state of Index (lines 21-24): the query input, the response,
the loading flag and the error message. -/
structure ComponentState where
  query : String
  response : Option QueryResponse
  loading : Bool
  error : Option String
  deriving DecidableEq

/-- Whitespace trim of the JavaScript String.trim call, written over the
character list. -/
def trimWS (s : String) : String :=
  String.mk (((s.toList.dropWhile Char.isWhitespace).reverse.dropWhile Char.isWhitespace).reverse)

/-- Lower-casing used for case normalization, written over the character
list. -/
def toLowerL (s : String) : String :=
  String.mk (s.toList.map Char.toLower)

/-- JavaScript string disjunction a or-else d: the default is taken when the
value is absent or the empty string (both falsy). -/
def jsOrString (v : Option String) (d : String) : String :=
  match v with
  | none => d
  | some s => if s = "" then d else s

/-- getApiUrl of Index.tsx (lines 28-30): VITE_API_URL or-else the fixed
default, with JavaScript truthiness. -/
def getApiUrl (env : Option String) : String :=
  jsOrString env "http://localhost:8000"

/-- Outcome of the fetch in handleSubmit: a success body, a non-ok HTTP
response whose parsed body may carry a detail field, or a thrown error
(network failure) with its message. -/
inductive FetchOutcome where
  | success (data : QueryResponse)
  | httpError (detail : Option String)
  | networkError (message : String)

/-- One HTTP request issued by the front end; bodyQuery is the question
text placed in the JSON body. -/
structure Request where
  url : String
  method : String
  bodyQuery : String
  deriving DecidableEq

/-- handleSubmit of Index.tsx (lines 41-82): early return on a
whitespace-only query; otherwise set loading, clear error and response,
issue one POST to the /query endpoint, then either store the decoded
QueryResponse or store the error message (detail or-else the fixed text),
resetting loading in the finally block.  Returns the new state and the list
of requests issued. -/
def handleSubmit (env : Option String) (s : ComponentState) (o : FetchOutcome) :
    ComponentState × List Request :=
  if trimWS s.query = "" then (s, [])
  else
    let req : Request :=
      { url := getApiUrl env ++ "/query", method := "POST", bodyQuery := s.query }
    match o with
    | .success d =>
        ({ s with loading := false, error := none, response := some d }, [req])
    | .httpError detail =>
        ({ s with loading := false, response := none, error := some (jsOrString detail "Query failed") }, [req])
    | .networkError m =>
        ({ s with loading := false, response := none, error := some m }, [req])

/-- Milliseconds badge of Index.tsx (line 230): (execution_time * 1000)
rounded by toFixed(0), which takes the nearest integer and the larger one
on ties. -/
def displayMs (executionTime : ℚ) : ℤ :=
  ⌊executionTime * 1000 + 1 / 2⌋

/-- Data Points badge of Index.tsx (line 236): raw_data optional-chained to
result optional-chained to length, or-else 0. -/
def dataPointsCount (r : QueryResponse) : Nat :=
  match r.raw_data with
  | none => 0
  | some rd =>
      match rd.result with
      | none => 0
      | some l => l.length

/-- Guard of the Raw Data panel of Index.tsx (line 265): raw_data result
present and of positive length (a JavaScript array is always truthy, so the
explicit length test decides). -/
def showRawDataPanel (r : QueryResponse) : Bool :=
  match r.raw_data with
  | none => false
  | some rd =>
      match rd.result with
      | none => false
      | some l => decide (0 < l.length)

/-- Grafana deep-link block of Index.tsx (line 239): rendered under the
truthiness of response.grafana_url, so an absent or empty URL suppresses
the link. -/
def grafanaLinkRendered (r : QueryResponse) : Option String :=
  match r.grafana_url with
  | none => none
  | some u => if u = "" then none else some u

/-- What the page shows for a given component state. -/
structure ViewModel where
  errorAlert : Option String
  answerText : Option String
  promqlText : Option String
  executionMs : Option ℤ
  dataPoints : Option Nat
  grafanaLink : Option String
  rawDataPanel : Bool
  deriving DecidableEq

/-- Render logic of Index.tsx (lines 172-286): the error alert shows a
truthy error, the response cards show only when a response is present. -/
def render (s : ComponentState) : ViewModel :=
  { errorAlert :=
      match s.error with
      | none => none
      | some e => if e = "" then none else some e,
    answerText := s.response.map QueryResponse.natural_language_response,
    promqlText := s.response.map QueryResponse.promql_query,
    executionMs := s.response.map (fun r => displayMs r.execution_time),
    dataPoints := s.response.map dataPointsCount,
    grafanaLink := s.response.bind grafanaLinkRendered,
    rawDataPanel := (s.response.map showRawDataPanel).getD false }

/-- Modelled from the spec: classification label of a translated query,
used only for phrasing and the default panel. -/
inductive QueryKind where
  | cpu | memory | rate | latency | errors | availability | unknown
  deriving DecidableEq

/-- Modelled from the spec: a rule of the Pattern Matcher, a pattern test
over the case-normalized input together with a structured-query template
and its kind.  The backend rule set is not under the checked sources. -/
structure Rule where
  pat : String → Bool
  template : String
  kind : QueryKind

/-- Modelled from the spec: errors of the Pattern Matcher; UnrecognizedQuery
carries the original input text. -/
inductive TranslateError where
  | unrecognizedQuery (text : String)
  deriving DecidableEq

/-- Modelled from the spec: the built-in default time window. -/
def defaultWindow : String := "5m"

/-- Modelled from the spec: template parameters are substituted with fixed
defaults; the window placeholder WINDOW becomes the default window. -/
def substituteWindow (t : String) : String :=
  t.replace "WINDOW" defaultWindow

/-- Modelled from the spec: translate iterates the rule set in declaration
order, tests each pattern against the lower-cased input, returns the first
matching template with defaults substituted, and fails with
UnrecognizedQuery carrying the original text when no rule matches. -/
def translate (rules : List Rule) (q : String) :
    Except TranslateError (String × QueryKind) :=
  match rules.find? (fun r => r.pat (toLowerL q)) with
  | some r => .ok (substituteWindow r.template, r.kind)
  | none => .error (.unrecognizedQuery q)

/-- Series data returned by the metrics store. -/
def SeriesResult := List Sample

/-- Modelled from the spec: the pipeline runs translate and only on success
calls the store once; the second component counts store calls. -/
def answer (rules : List Rule) (store : String → SeriesResult) (q : String) :
    Except TranslateError (String × QueryKind × SeriesResult) × Nat :=
  match translate rules q with
  | .error e => (.error e, 0)
  | .ok (sq, k) => (.ok (sq, k, store sq), 1)

/-- Modelled from the spec: the executor reads the clock immediately before
and immediately after the store call, so the measured duration covers only
the query-execution step. -/
def executeTimed (store : String → SeriesResult) (c0 c1 : ℚ) (sq : String) :
    SeriesResult × ℚ :=
  (store sq, c1 - c0)

/-- Substring test used by the demonstration rules: the pattern occurs
anywhere in the text. -/
def containsAnywhere (pat s : String) : Bool :=
  s.toList.tails.any (fun t => pat.toList.isPrefixOf t)

/-- Demonstration rule matching cpu questions. -/
def cpuRule : Rule :=
  { pat := fun s => containsAnywhere "cpu" s,
    template := "avg(rate(node_cpu_seconds_total[WINDOW])) * 100",
    kind := .cpu }

/-- Demonstration rule matching usage questions; deliberately overlaps with
cpuRule on inputs mentioning both. -/
def usageRule : Rule :=
  { pat := fun s => containsAnywhere "usage" s,
    template := "node_memory_usage_bytes",
    kind := .memory }

/-- A deliberately overlapping rule pair. -/
def demoRules : List Rule := [cpuRule, usageRule]

/-- A concrete non-empty submission state used by counterexamples and
witnesses. -/
def s0 : ComponentState :=
  { query := "show cpu", response := none, loading := false, error := none }

/-- A concrete successful response whose grafana_url is present but empty,
exercising the truthiness guard of the deep-link block. -/
def respEmptyUrl : QueryResponse :=
  { natural_language_response := "CPU usage is 45.2 percent",
    promql_query := "up", raw_data := none, grafana_url := some "",
    execution_time := 0 }

/-- A concrete successful response without a grafana_url. -/
def respNoUrl : QueryResponse :=
  { natural_language_response := "no data found", promql_query := "up",
    raw_data := none, grafana_url := none, execution_time := 0 }

/-- A concrete response carrying one sample in its raw data. -/
def respOneSample : QueryResponse :=
  { natural_language_response := "ok", promql_query := "up",
    raw_data := some { result := some [{ labels := [], value := 1 }] },
    grafana_url := none, execution_time := 0 }

/-- A concrete response without raw data. -/
def respNoData : QueryResponse :=
  { natural_language_response := "ok", promql_query := "up",
    raw_data := none, grafana_url := none, execution_time := 0 }

/-- List.find? returns the element at the least index satisfying the
predicate. -/
theorem find_first {α : Type} (p : α → Bool) (l : List α) (i : Nat)
    (hi : i < l.length) (hp : p (l.get ⟨i, hi⟩) = true)
    (hmin : ∀ j (hj : j < l.length), j < i → p (l.get ⟨j, hj⟩) = false) :
    l.find? p = some (l.get ⟨i, hi⟩) := by
  induction l generalizing i with
  | nil => exact absurd hi (Nat.not_lt_zero i)
  | cons a l ih =>
    cases i with
    | zero =>
      simp only [List.get] at hp
      simp [List.find?, hp]
    | succ n =>
      have ha : p a = false := hmin 0 (Nat.succ_pos _) (Nat.succ_pos n)
      simp only [List.find?, ha]
      exact ih n (Nat.lt_of_succ_lt_succ hi) hp
        (fun j hj hlt => hmin (j + 1) (Nat.succ_lt_succ hj) (Nat.succ_lt_succ hlt))

/-- C1: when the patterns of two or more rules match the question, translate
returns the structured-query template of the earliest matching rule in the
declaration order (here, the rule at index i, with a second match at index j
and no match before i); no scoring or ranking takes place. -/
theorem translate_first_match (rules : List Rule) (q : String) (i j : Nat)
    (hi : i < rules.length) (hj : j < rules.length) (_hij : i < j)
    (hmi : (rules.get ⟨i, hi⟩).pat (toLowerL q) = true)
    (_hmj : (rules.get ⟨j, hj⟩).pat (toLowerL q) = true)
    (hmin : ∀ k (hk : k < rules.length), k < i → (rules.get ⟨k, hk⟩).pat (toLowerL q) = false) :
    translate rules q =
      .ok (substituteWindow (rules.get ⟨i, hi⟩).template, (rules.get ⟨i, hi⟩).kind) := by
  unfold translate
  rw [find_first (fun r => r.pat (toLowerL q)) rules i hi hmi hmin]

/-- Witness for C1: both demonstration rules match the overlapping input and
the earlier rule wins. -/
theorem translate_first_match_witness :
    translate demoRules "CPU Usage" = .ok (substituteWindow cpuRule.template, QueryKind.cpu) :=
  translate_first_match demoRules "CPU Usage" 0 1 (by decide) (by decide) (by decide)
    (by decide) (by decide) (fun k _ hk0 => absurd hk0 (Nat.not_lt_zero k))

/-- C2: when no rule matches, the pipeline fails with UnrecognizedQuery
carrying the original input text, returns no query, and makes no store
call (the call counter is zero). -/
theorem translate_no_match (rules : List Rule) (store : String → SeriesResult) (q : String)
    (h : ∀ r ∈ rules, r.pat (toLowerL q) = false) :
    answer rules store q = (.error (.unrecognizedQuery q), 0) := by
  have hf : rules.find? (fun r => r.pat (toLowerL q)) = none :=
    List.find?_eq_none.mpr (fun x hx => by simp [h x hx])
  unfold answer translate
  rw [hf]

/-- Witness for C2: the nonsense input of end-to-end scenario 2 matches no
demonstration rule, so the pipeline raises UnrecognizedQuery and the store
call count is zero. -/
theorem translate_no_match_witness :
    answer demoRules (fun _ => []) "asdfjkl random text" =
      (.error (.unrecognizedQuery "asdfjkl random text"), 0) :=
  translate_no_match demoRules (fun _ => []) "asdfjkl random text" (by decide)

/-- C4: when the query is empty after trimming, handleSubmit returns before
issuing any request and leaves the component state unchanged. -/
theorem empty_query_no_request (env : Option String) (s : ComponentState) (o : FetchOutcome)
    (h : trimWS s.query = "") :
    handleSubmit env s o = (s, []) := by
  unfold handleSubmit
  rw [if_pos h]

/-- Witness for C4: a whitespace-only query produces no request and no state
change. -/
theorem empty_query_no_request_witness :
    handleSubmit none { query := "   ", response := none, loading := false, error := none }
      (.networkError "boom") =
      ({ query := "   ", response := none, loading := false, error := none }, []) :=
  empty_query_no_request none _ _ (by decide)

/-- C9: getApiUrl is a function of the build-time environment alone: it
returns the configured value whenever it is set and non-empty, and the
fixed default otherwise. -/
theorem getApiUrl_spec (env : Option String) :
    (∀ v, env = some v → v ≠ "" → getApiUrl env = v) ∧
    (env = none → getApiUrl env = "http://localhost:8000") ∧
    (env = some "" → getApiUrl env = "http://localhost:8000") := by
  refine ⟨fun v hv hne => ?_, fun hn => ?_, fun he => ?_⟩
  · subst hv
    simp [getApiUrl, jsOrString, hne]
  · subst hn
    rfl
  · subst he
    rfl

/-- Witness for C9: a configured non-empty URL is returned as is, and the
unset environment yields the default. -/
theorem getApiUrl_spec_witness :
    getApiUrl (some "http://api.example:9000") = "http://api.example:9000" ∧
    getApiUrl none = "http://localhost:8000" :=
  ⟨(getApiUrl_spec (some "http://api.example:9000")).1 _ rfl (by decide),
   (getApiUrl_spec none).2.1 rfl⟩

/-- Reduction of handleSubmit on the success outcome past the guard. -/
theorem handleSubmit_success_eq (env : Option String) (s : ComponentState)
    (d : QueryResponse) (h : trimWS s.query ≠ "") :
    handleSubmit env s (.success d) =
      ({ s with loading := false, error := none, response := some d },
       [{ url := getApiUrl env ++ "/query", method := "POST", bodyQuery := s.query }]) := by
  unfold handleSubmit
  rw [if_neg h]

/-- Reduction of handleSubmit on a non-ok HTTP response past the guard. -/
theorem handleSubmit_httpError_eq (env : Option String) (s : ComponentState)
    (detail : Option String) (h : trimWS s.query ≠ "") :
    handleSubmit env s (.httpError detail) =
      ({ s with loading := false, response := none, error := some (jsOrString detail "Query failed") },
       [{ url := getApiUrl env ++ "/query", method := "POST", bodyQuery := s.query }]) := by
  unfold handleSubmit
  rw [if_neg h]

/-- Reduction of handleSubmit on a thrown fetch error past the guard. -/
theorem handleSubmit_networkError_eq (env : Option String) (s : ComponentState)
    (m : String) (h : trimWS s.query ≠ "") :
    handleSubmit env s (.networkError m) =
      ({ s with loading := false, response := none, error := some m },
       [{ url := getApiUrl env ++ "/query", method := "POST", bodyQuery := s.query }]) := by
  unfold handleSubmit
  rw [if_neg h]

/-- C3 counterexample: the backend sends a non-success response whose
detail field is present but empty; handleSubmit displays the fallback text
instead of surfacing the empty detail verbatim, so the fallback is not used
only when the detail field is absent. -/
theorem http_error_detail_counterexample :
    (some "" : Option String).isSome = true ∧
    (handleSubmit none s0 (.httpError (some ""))).1.error = some "Query failed" ∧
    ("Query failed" : String) ≠ "" := by
  refine ⟨rfl, ?_, by decide⟩
  decide

/-- C3 amended: on a non-success HTTP response, handleSubmit surfaces the
detail message verbatim whenever it is present and non-empty, falls back to
the fixed text when it is absent or empty, sets the displayed error to that
message, and leaves no answer displayed (response state is null). -/
theorem http_error_surfaced (env : Option String) (s : ComponentState)
    (detail : Option String) (h : trimWS s.query ≠ "") :
    (handleSubmit env s (.httpError detail)).1.response = none ∧
    (handleSubmit env s (.httpError detail)).1.loading = false ∧
    (∀ d, detail = some d → d ≠ "" →
      (handleSubmit env s (.httpError detail)).1.error = some d) ∧
    (detail = none ∨ detail = some "" →
      (handleSubmit env s (.httpError detail)).1.error = some "Query failed") := by
  rw [handleSubmit_httpError_eq env s detail h]
  refine ⟨rfl, rfl, fun d hd hne => ?_, fun habs => ?_⟩
  · subst hd
    simp [jsOrString, hne]
  · rcases habs with h1 | h1 <;> subst h1 <;> rfl

/-- Witness for C3: a non-empty detail message is surfaced verbatim and the
response stays null. -/
theorem http_error_surfaced_witness :
    (handleSubmit none s0 (.httpError (some "metric not found"))).1.error =
      some "metric not found" ∧
    (handleSubmit none s0 (.httpError (some "metric not found"))).1.response = none :=
  ⟨(http_error_surfaced none s0 (some "metric not found") (by decide)).2.2.1
      "metric not found" rfl (by decide),
   (http_error_surfaced none s0 (some "metric not found") (by decide)).1⟩

/-- C5: for every submission that passes the emptiness guard, handleSubmit
issues exactly one POST request to the /query endpoint with the question
text as the JSON body, the consumed answer on success is the single decoded
QueryResponse record, and a QueryResponse is determined by exactly its five
fields (sentence, structured query, raw series data, optional visualization
URL, execution time). -/
theorem single_post_per_submit (env : Option String) (s : ComponentState) (o : FetchOutcome)
    (h : trimWS s.query ≠ "") :
    (handleSubmit env s o).2 =
      [{ url := getApiUrl env ++ "/query", method := "POST", bodyQuery := s.query }] ∧
    (∀ d, o = .success d → (handleSubmit env s o).1.response = some d) ∧
    (∀ a b : QueryResponse,
      a.natural_language_response = b.natural_language_response →
      a.promql_query = b.promql_query → a.raw_data = b.raw_data →
      a.grafana_url = b.grafana_url → a.execution_time = b.execution_time → a = b) := by
  simp only [handleSubmit, if_neg h]
  refine ⟨?_, fun d hd => ?_, fun a b h1 h2 h3 h4 h5 => ?_⟩
  · cases o <;> rfl
  · subst hd
    rfl
  · cases a
    cases b
    simp_all

/-- Witness for C5: a concrete successful submission issues the single POST
request and stores the decoded record. -/
theorem single_post_per_submit_witness :
    (handleSubmit none s0 (.networkError "down")).2 =
      [{ url := "http://localhost:8000/query", method := "POST", bodyQuery := "show cpu" }] :=
  (single_post_per_submit none s0 (.networkError "down") (by decide)).1

/-- C6 counterexample: grafana_url is present (an empty string), yet the
deep link is not rendered, because the JSX guard tests JavaScript
truthiness and an empty string is falsy. -/
theorem grafana_present_counterexample :
    respEmptyUrl.grafana_url.isSome = true ∧
    grafanaLinkRendered respEmptyUrl = none := by
  exact ⟨rfl, rfl⟩

/-- C6 amended: absence of the visualization URL is not a failure: a
successful response without grafana_url renders the answer normally with no
error alert and merely omits the deep link; the deep link is rendered
exactly when grafana_url is present and non-empty. -/
theorem grafana_link_optional (r : QueryResponse) (q : String) :
    (render { query := q, response := some r, loading := false, error := none }).answerText =
      some r.natural_language_response ∧
    (render { query := q, response := some r, loading := false, error := none }).errorAlert =
      none ∧
    (r.grafana_url = none →
      (render { query := q, response := some r, loading := false, error := none }).grafanaLink =
        none) ∧
    (∀ u, r.grafana_url = some u → u ≠ "" →
      (render { query := q, response := some r, loading := false, error := none }).grafanaLink =
        some u) := by
  refine ⟨rfl, rfl, fun hn => ?_, fun u hu hne => ?_⟩
  · simp [render, grafanaLinkRendered, hn]
  · simp [render, grafanaLinkRendered, hu, hne]

/-- Witness for C6 amended: a response without grafana_url still shows its
answer, raises no error alert and omits the link. -/
theorem grafana_link_optional_witness :
    (render { query := "q", response := some respNoUrl, loading := false, error := none }).answerText = some "no data found" ∧
    (render { query := "q", response := some respNoUrl, loading := false, error := none }).grafanaLink = none :=
  ⟨(grafana_link_optional respNoUrl "q").1,
   (grafana_link_optional respNoUrl "q").2.2.1 rfl⟩

/-- C7: under a monotone clock, the measured execution time is non-negative
and equals exactly the duration of the store call bracketed by the two
clock reads (nothing of translation or synthesis is included); the
presentation layer displays round(execution_time * 1000) milliseconds. -/
theorem execution_time_contract (store : String → SeriesResult) (c0 c1 : ℚ)
    (sq : String) (h : c0 ≤ c1) :
    0 ≤ (executeTimed store c0 c1 sq).2 ∧
    (executeTimed store c0 c1 sq).2 = c1 - c0 ∧
    (∀ t : ℚ, displayMs t = round (t * 1000)) := by
  refine ⟨sub_nonneg.mpr h, rfl, fun t => ?_⟩
  unfold displayMs
  rw [round_eq]

/-- Witness for C7: a concrete timed execution yields a non-negative
duration and the milliseconds display of 0.1234 seconds is 123. -/
theorem execution_time_contract_witness :
    0 ≤ (executeTimed (fun _ => []) 2 (5 / 2) "up").2 ∧
    displayMs (1234 / 10000) = 123 :=
  ⟨(execution_time_contract (fun _ => []) 2 (5 / 2) "up" (by norm_num)).1,
   by norm_num [displayMs]⟩

/-- C8: starting from a reachable state (loading off, at most one of
response and error set), any completed run of handleSubmit leaves at most
one of response and error non-null and the loading flag false; past the
guard, success stores the response and clears the error, and every failure
stores an error and clears the response. -/
theorem submit_state_invariant (env : Option String) (s : ComponentState) (o : FetchOutcome)
    (h1 : s.response = none ∨ s.error = none) (h2 : s.loading = false) :
    ((handleSubmit env s o).1.response = none ∨ (handleSubmit env s o).1.error = none) ∧
    (handleSubmit env s o).1.loading = false ∧
    (trimWS s.query ≠ "" → ∀ d, o = .success d →
      (handleSubmit env s o).1.response = some d ∧ (handleSubmit env s o).1.error = none) ∧
    (trimWS s.query ≠ "" → ∀ detail, o = .httpError detail →
      (handleSubmit env s o).1.response = none ∧
      (handleSubmit env s o).1.error = some (jsOrString detail "Query failed")) ∧
    (trimWS s.query ≠ "" → ∀ m, o = .networkError m →
      (handleSubmit env s o).1.response = none ∧ (handleSubmit env s o).1.error = some m) := by
  by_cases hq : trimWS s.query = ""
  · have hred : handleSubmit env s o = (s, []) := by
      unfold handleSubmit
      rw [if_pos hq]
    rw [hred]
    exact ⟨h1, h2, fun hne => absurd hq hne, fun hne => absurd hq hne,
      fun hne => absurd hq hne⟩
  · cases o with
    | success d =>
        rw [handleSubmit_success_eq env s d hq]
        refine ⟨Or.inr rfl, rfl, ?_, ?_, ?_⟩
        · intro _ e he
          injection he with hde
          subst hde
          exact ⟨rfl, rfl⟩
        · intro _ e he
          exact FetchOutcome.noConfusion he
        · intro _ e he
          exact FetchOutcome.noConfusion he
    | httpError detail =>
        rw [handleSubmit_httpError_eq env s detail hq]
        refine ⟨Or.inl rfl, rfl, ?_, ?_, ?_⟩
        · intro _ e he
          exact FetchOutcome.noConfusion he
        · intro _ e he
          injection he with hde
          subst hde
          exact ⟨rfl, rfl⟩
        · intro _ e he
          exact FetchOutcome.noConfusion he
    | networkError m =>
        rw [handleSubmit_networkError_eq env s m hq]
        refine ⟨Or.inl rfl, rfl, ?_, ?_, ?_⟩
        · intro _ e he
          exact FetchOutcome.noConfusion he
        · intro _ e he
          exact FetchOutcome.noConfusion he
        · intro _ e he
          injection he with hde
          subst hde
          exact ⟨rfl, rfl⟩

/-- Witness for C8: a concrete failing run clears the response, stores the
error message and resets loading. -/
theorem submit_state_invariant_witness :
    ((handleSubmit none s0 (.networkError "down")).1.response = none ∨
      (handleSubmit none s0 (.networkError "down")).1.error = none) ∧
    (handleSubmit none s0 (.networkError "down")).1.loading = false :=
  ⟨(submit_state_invariant none s0 (.networkError "down") (Or.inl rfl) rfl).1,
   (submit_state_invariant none s0 (.networkError "down") (Or.inl rfl) rfl).2.1⟩

/-- C10: the Data Points badge equals the length of raw_data.result when
both raw_data and result are present and is 0 when either is absent, and
the Raw Data panel is rendered exactly when result exists and is
non-empty. -/
theorem raw_data_guard (r : QueryResponse) :
    (r.raw_data = none → dataPointsCount r = 0 ∧ showRawDataPanel r = false) ∧
    (∀ rd, r.raw_data = some rd → rd.result = none →
      dataPointsCount r = 0 ∧ showRawDataPanel r = false) ∧
    (∀ rd l, r.raw_data = some rd → rd.result = some l →
      dataPointsCount r = l.length ∧ (showRawDataPanel r = true ↔ 0 < l.length)) := by
  refine ⟨fun hn => ?_, fun rd hrd hres => ?_, fun rd l hrd hres => ?_⟩
  · exact ⟨by simp [dataPointsCount, hn], by simp [showRawDataPanel, hn]⟩
  · exact ⟨by simp [dataPointsCount, hrd, hres], by simp [showRawDataPanel, hrd, hres]⟩
  · constructor
    · simp [dataPointsCount, hrd, hres]
    · simp [showRawDataPanel, hrd, hres]

/-- Witness for C10: a response with one sample shows one data point and
renders the raw-data panel, and a response without raw_data shows zero. -/
theorem raw_data_guard_witness :
    dataPointsCount respOneSample = 1 ∧ dataPointsCount respNoData = 0 :=
  ⟨((raw_data_guard respOneSample).2.2
      { result := some [{ labels := [], value := 1 }] } [{ labels := [], value := 1 }]
      rfl rfl).1,
   ((raw_data_guard respNoData).1 rfl).1⟩

end MetricsWhisperer
